import Mathlib

/-!
Verification of the daily-reset reconciliation logic of the task-manager
backend (`src/api/state.js`, `src/server.js`).

The JavaScript source is shallowly embedded: the mongoose `AppState`
document becomes a Lean structure, `applyISTDailyReset` becomes a pure
function taking the day-key as an explicit parameter (the source reads it
from the ambient clock via `getISTDayKey()`), and the `PUT` handler's
field overlay becomes `putOverlay` over a payload whose fields can be
absent (`undefined`), `null`, or present, mirroring the semantics of the
JavaScript nullish-coalescing operator `??`.
-/

set_option maxHeartbeats 1000000

namespace TaskManager

/-- Opaque JSON-compatible values, used for the pass-through fields of the
document (`plannerTasks`, the reminder configuration maps,
`muscleProgress`, and the `links` of a mind subject), whose internal shape
the server never inspects. -/
inductive JsonValue where
  | null
  | bool (b : Bool)
  | num (n : Int)
  | str (s : String)
  | arr (elems : List JsonValue)
  | obj (fields : List (String × JsonValue))

/-- A field of a JavaScript object as seen by the `??` operator: absent
(`undefined`), explicitly `null`, or carrying a value. -/
inductive JsField (α : Type) where
  | undefined
  | null
  | val (a : α)

/-- The JavaScript nullish-coalescing operator: `p ?? d` is `d` when `p`
is `undefined` or `null`, and the carried value otherwise. -/
def JsField.coalesce {α : Type} : JsField α → α → α
  | .undefined, d => d
  | .null, d => d
  | .val a, _ => a

/-- The field is `undefined` or `null` (the two nullish values of
JavaScript). -/
def JsField.isNullish {α : Type} : JsField α → Prop
  | .undefined => True
  | .null => True
  | .val _ => False

/-- A checklist item `{id, label, completed}` as stored in `bodyTasks`
and `skinTasks` (see the default templates in `src/api/state.js`). -/
structure TaskItem where
  id : Nat
  label : String
  completed : Bool
deriving DecidableEq

/-- A study unit `{id, label, completed}` inside a mind subject. -/
structure MindUnit where
  id : String
  label : String
  completed : Bool
deriving DecidableEq

/-- A mind subject `{id, label, units, links}`; `links` is pass-through
data never inspected by the reconciler. -/
structure MindSubject where
  id : String
  label : String
  units : List MindUnit
  links : List JsonValue

/-- The `AppState` mongoose document of `src/api/state.js` (the variant
with the full field set; `src/server.js` omits `mindLastReminderDay`,
`weightInput` and `muscleProgress` from its schema). Every field of the
schema other than the timestamps is modelled. Mongoose guarantees the
array-typed fields default to `[]` and are arrays whenever a document is
materialised, so they are plain lists here; `s.units || []` in the source
therefore reads `s.units`. -/
structure AppState where
  userId : String
  plannerTasks : List JsonValue
  bodyTasks : List TaskItem
  skinTasks : List TaskItem
  skinSessions : Int
  mindSubjects : List MindSubject
  reminderSettings : JsonValue
  mindReminderTimes : JsonValue
  mindReminderEnabled : JsonValue
  mindLastReminderDay : JsonValue
  weightInput : String
  muscleProgress : JsonValue
  istDayKey : String

/-- `defaultBodyTasks` from `src/api/state.js`. -/
def defaultBodyTasks : List TaskItem :=
  [ { id := 1, label := "Push ups", completed := false },
    { id := 2, label := "Pull ups", completed := false },
    { id := 3, label := "Crunches", completed := false },
    { id := 4, label := "Crucifix", completed := false },
    { id := 5, label := "Russian Twists", completed := false },
    { id := 6, label := "Biceps", completed := false },
    { id := 7, label := "Shoulders", completed := false },
    { id := 8, label := "Triceps", completed := false },
    { id := 9, label := "Forearms", completed := false },
    { id := 10, label := "Calisthenics", completed := false } ]

/-- `defaultSkinTasks` from `src/api/state.js`. -/
def defaultSkinTasks : List TaskItem :=
  [ { id := 1, label := "Body Wash", completed := false },
    { id := 2, label := "Face Wash", completed := false },
    { id := 3, label := "Clean", completed := false },
    { id := 4, label := "Face Serum", completed := false },
    { id := 5, label := "Eye Blow Cleaning", completed := false } ]

/-- `defaultMindSubjects` from `src/api/state.js`. -/
def defaultMindSubjects : List MindSubject :=
  [ { id := "dsa", label := "DSA",
      units :=
        [ { id := "dsa-u1", label := "U1", completed := false },
          { id := "dsa-u2", label := "U2", completed := false },
          { id := "dsa-u3", label := "U3", completed := false },
          { id := "dsa-u4", label := "U4", completed := false } ],
      links := [] } ]

/-- The default of the `reminderSettings` schema field. -/
def defaultReminderSettings : JsonValue :=
  .obj [("enabled", .bool true), ("skinTime", .str "21:00"), ("bodyTime", .str "19:00")]

/-- `applyISTDailyReset` from `src/api/state.js` lines 142-166 (identical
logic in `src/server.js` lines 113-135). The source computes
`todayIST = getISTDayKey()` from the clock; here `todayIST` is an explicit
parameter. `doc.bodyTasks?.length ? A : B` tests JavaScript truthiness of
the length, i.e. `length ≠ 0`. The source mutates `doc` and returns it;
the embedding returns the updated record. -/
def applyISTDailyReset (doc : AppState) (todayIST : String) : AppState :=
  if doc.istDayKey ≠ todayIST then
    { doc with
      bodyTasks :=
        (if doc.bodyTasks.length ≠ 0 then doc.bodyTasks else defaultBodyTasks).map
          (fun t => { t with completed := false }),
      skinTasks :=
        (if doc.skinTasks.length ≠ 0 then doc.skinTasks else defaultSkinTasks).map
          (fun t => { t with completed := false }),
      mindSubjects :=
        (if doc.mindSubjects.length ≠ 0 then doc.mindSubjects else defaultMindSubjects).map
          (fun s => { s with units := s.units.map (fun u => { u with completed := false }) }),
      istDayKey := todayIST }
  else
    doc

/-- The body of a `PUT /api/state` request: each overlayable field can be
absent, `null`, or present. The fields are typed at their schema types. -/
structure PutPayload where
  plannerTasks : JsField (List JsonValue)
  bodyTasks : JsField (List TaskItem)
  skinTasks : JsField (List TaskItem)
  skinSessions : JsField Int
  mindSubjects : JsField (List MindSubject)
  reminderSettings : JsField JsonValue
  mindReminderTimes : JsField JsonValue
  mindReminderEnabled : JsField JsonValue
  mindLastReminderDay : JsField JsonValue
  weightInput : JsField String
  muscleProgress : JsField JsonValue

/-- The `PUT` branch of the serverless handler in `src/api/state.js`
lines 206-231: reconcile first ("apply reset first to keep dayKey
consistent"), then overlay each payload field with `??` onto the
reconciled document; the result is what `doc.save()` persists. -/
def putOverlay (doc : AppState) (payload : PutPayload) (todayIST : String) : AppState :=
  let d := applyISTDailyReset doc todayIST
  { d with
    plannerTasks := payload.plannerTasks.coalesce d.plannerTasks,
    bodyTasks := payload.bodyTasks.coalesce d.bodyTasks,
    skinTasks := payload.skinTasks.coalesce d.skinTasks,
    skinSessions := payload.skinSessions.coalesce d.skinSessions,
    mindSubjects := payload.mindSubjects.coalesce d.mindSubjects,
    reminderSettings := payload.reminderSettings.coalesce d.reminderSettings,
    mindReminderTimes := payload.mindReminderTimes.coalesce d.mindReminderTimes,
    mindReminderEnabled := payload.mindReminderEnabled.coalesce d.mindReminderEnabled,
    mindLastReminderDay := payload.mindLastReminderDay.coalesce d.mindLastReminderDay,
    weightInput := payload.weightInput.coalesce d.weightInput,
    muscleProgress := payload.muscleProgress.coalesce d.muscleProgress }

/-- The identity of a checklist item: everything except `completed`. -/
def taskIdentity (t : TaskItem) : Nat × String := (t.id, t.label)

/-- The identity of a mind unit: everything except `completed`. -/
def unitIdentity (u : MindUnit) : String × String := (u.id, u.label)

/-- The identity of a mind subject: its `id`, `label`, `links`, and the
identities of its units. -/
def subjectIdentity (s : MindSubject) :
    String × String × List (String × String) × List JsonValue :=
  (s.id, s.label, s.units.map unitIdentity, s.links)

/-- A populated document used to instantiate the universally quantified
theorems at a concrete input. -/
def sampleState : AppState :=
  { userId := "demo",
    plannerTasks := [],
    bodyTasks := defaultBodyTasks,
    skinTasks := defaultSkinTasks,
    skinSessions := 0,
    mindSubjects := defaultMindSubjects,
    reminderSettings := defaultReminderSettings,
    mindReminderTimes := .obj [],
    mindReminderEnabled := .obj [],
    mindLastReminderDay := .obj [],
    weightInput := "",
    muscleProgress := .obj [],
    istDayKey := "2024-01-01" }

/-- A document with every checklist collection empty. -/
def emptyState : AppState :=
  { userId := "demo",
    plannerTasks := [],
    bodyTasks := [],
    skinTasks := [],
    skinSessions := 0,
    mindSubjects := [],
    reminderSettings := defaultReminderSettings,
    mindReminderTimes := .obj [],
    mindReminderEnabled := .obj [],
    mindLastReminderDay := .obj [],
    weightInput := "",
    muscleProgress := .obj [],
    istDayKey := "2024-01-01" }

/-- The overlay contract for one field of the `PUT` handler: a value the
caller explicitly provided wins; a field the caller omitted keeps the
reconciled record's value. -/
def overlayedField {α : Type} (p : JsField α) (res reconciled : α) : Prop :=
  (∀ v, p = JsField.val v → res = v) ∧ (p = JsField.undefined → res = reconciled)

/-- The spec's update-overlay scenario: a `PUT` body `{skinSessions: 5}`
with every other field absent. -/
def sessionOnlyPayload : PutPayload :=
  { plannerTasks := .undefined,
    bodyTasks := .undefined,
    skinTasks := .undefined,
    skinSessions := .val 5,
    mindSubjects := .undefined,
    reminderSettings := .undefined,
    mindReminderTimes := .undefined,
    mindReminderEnabled := .undefined,
    mindLastReminderDay := .undefined,
    weightInput := .undefined,
    muscleProgress := .undefined }

/-- A payload in which every field is nullish: some explicitly `null`,
some absent. -/
def nullishPayload : PutPayload :=
  { plannerTasks := .null,
    bodyTasks := .undefined,
    skinTasks := .null,
    skinSessions := .null,
    mindSubjects := .undefined,
    reminderSettings := .null,
    mindReminderTimes := .undefined,
    mindReminderEnabled := .null,
    mindLastReminderDay := .undefined,
    weightInput := .null,
    muscleProgress := .null }

/- ------------------------------------------------------------------ -/
/- The day-key resolver `getISTDayKey` -/
/- ------------------------------------------------------------------ -/

/-- Offset of the fixed IST timezone (UTC+05:30) in milliseconds. The
source delegates the timezone conversion to
`Intl.DateTimeFormat("en-US", { timeZone: "Asia/Kolkata", ... })`; the
model idealises `Asia/Kolkata` to its modern fixed offset `+05:30`
(exact for every instant since 1945), matching the spec's "one fixed
timezone (UTC+5:30)". -/
def istOffsetMs : Int := 19800000

/-- Milliseconds per calendar day. -/
def msPerDay : Int := 86400000

/-- The day number (days since 1970-01-01) on which the instant `nowMs`
(milliseconds since the Unix epoch, the content of a JavaScript `Date`)
falls in the fixed IST timezone. -/
def istDayNumber (nowMs : Int) : Int := (nowMs + istOffsetMs).fdiv msPerDay

/-- The proleptic-Gregorian civil date `(year, month, day)` of a day
number, modelling the calendar computation performed by
`Intl.DateTimeFormat`. Standard era-based algorithm: an era is a 400-year
cycle of 146097 days; `doe`, `yoe`, `doy`, `mp` are the day-of-era,
year-of-era, day-of-(March-based)-year and March-based month. -/
def civilFromDays (days : Int) : Int × Nat × Nat :=
  let z := days + 719468
  let era := z.fdiv 146097
  let doe := (z - era * 146097).toNat
  let yoe := (doe - doe / 1460 + doe / 36524 - doe / 146096) / 365
  let y : Int := (yoe : Int) + era * 400
  let doy := doe - (365 * yoe + yoe / 4 - yoe / 100)
  let mp := (5 * doy + 2) / 153
  let d := doy - (153 * mp + 2) / 5 + 1
  let m := if mp < 10 then mp + 3 else mp - 9
  (if m ≤ 2 then y + 1 else y, m, d)

/-- The civil date of an instant in the fixed IST timezone. -/
def istCivil (nowMs : Int) : Int × Nat × Nat := civilFromDays (istDayNumber nowMs)

/-- The decimal digit character for `n % 10`. -/
def digitChar (n : Nat) : Char := Char.ofNat (48 + n % 10)

/-- The two-digit zero-padded rendering used by Intl's `"2-digit"` month
and day fields. -/
def pad2 (n : Nat) : List Char := [digitChar (n / 10), digitChar n]

/-- Fuel-driven unpadded decimal rendering (the fuel makes the recursion
structural so that the kernel can evaluate it). -/
def decimalDigitsCore : Nat → Nat → List Char
  | 0, _ => []
  | fuel + 1, n =>
    if n < 10 then [digitChar n]
    else decimalDigitsCore fuel (n / 10) ++ [digitChar n]

/-- Unpadded decimal rendering of a natural number, modelling Intl's
`year: "numeric"` field, which emits the year without padding (`"500"`
for year 500, `"2024"` for year 2024). -/
def decimalDigits (n : Nat) : List Char := decimalDigitsCore (n + 1) n

/-- The characters of a day-key `${y}-${m}-${d}`: unpadded year, dash,
two-digit month, dash, two-digit day. -/
def dayKeyChars (y m d : Nat) : List Char :=
  decimalDigits y ++ '-' :: (pad2 m ++ '-' :: pad2 d)

/-- `getISTDayKey` from `src/api/state.js` lines 54-66 (identical in
`src/server.js` lines 37-49): the calendar date of the instant in the
fixed IST timezone, assembled as `${y}-${m}-${d}` from the formatted
parts. The source reads `new Date()`; here the instant is the explicit
parameter `nowMs`. The `?.value || "0000"` fallbacks in the source are
dead code (the requested parts always exist) and are not modelled; the
model covers years from 1 CE onward. -/
def getISTDayKey (nowMs : Int) : String :=
  ⟨dayKeyChars (istCivil nowMs).1.toNat (istCivil nowMs).2.1 (istCivil nowMs).2.2⟩

/-- Lexicographic (calendar) order on `(year, month, day)` triples. -/
def dayTripleLt (a b : Int × Nat × Nat) : Prop :=
  a.1 < b.1 ∨ (a.1 = b.1 ∧ (a.2.1 < b.2.1 ∨ (a.2.1 = b.2.1 ∧ a.2.2 < b.2.2)))

/- ------------------------------------------------------------------ -/
/- Theorems about the reconciler -/
/- ------------------------------------------------------------------ -/

theorem JsField.coalesce_nullish {α : Type} (j : JsField α) (x : α)
    (h : j.isNullish) : j.coalesce x = x := by
  cases j
  · rfl
  · rfl
  · exact h.elim

theorem istDayKey_after_reset (S : AppState) (D : String) :
    (applyISTDailyReset S D).istDayKey = D := by
  by_cases h : S.istDayKey = D <;> simp [applyISTDailyReset, h]

/-- Claim C1: reconciliation is idempotent: for every state record `S`
and day-key `D`, `applyISTDailyReset (applyISTDailyReset S D) D =
applyISTDailyReset S D`. -/
theorem reconcile_idempotent (S : AppState) (D : String) :
    applyISTDailyReset (applyISTDailyReset S D) D = applyISTDailyReset S D := by
  by_cases h : S.istDayKey = D
  · simp [applyISTDailyReset, h]
  · simp [applyISTDailyReset, h]

/-- Claim C2: when the stored day-key already equals `D`, reconciliation
returns the state unchanged (a pure no-op on every field). -/
theorem reconcile_noop_same_day (S : AppState) (D : String) (h : S.istDayKey = D) :
    applyISTDailyReset S D = S := by
  simp [applyISTDailyReset, h]

theorem reconcile_noop_same_day_witness :
    applyISTDailyReset sampleState "2024-01-01" = sampleState :=
  reconcile_noop_same_day sampleState "2024-01-01" rfl

/-- Claim C8: reconciliation never changes the `skinSessions` counter,
whether or not the day-key differs. -/
theorem reconcile_preserves_skinSessions (S : AppState) (D : String) :
    (applyISTDailyReset S D).skinSessions = S.skinSessions := by
  by_cases h : S.istDayKey = D <;> simp [applyISTDailyReset, h]

/-- Claim C3: reconciliation changes only `completed` flags: for the items
of a non-empty `bodyTasks`, `skinTasks` or `mindSubjects` collection of
`S`, each item keeps its `id` and `label`, and each subject keeps its
`id`, `label`, `links`, and the `id`/`label` of every unit. -/
theorem reconcile_preserves_identities (S : AppState) (D : String) :
    (S.bodyTasks ≠ [] →
      (applyISTDailyReset S D).bodyTasks.map taskIdentity = S.bodyTasks.map taskIdentity) ∧
    (S.skinTasks ≠ [] →
      (applyISTDailyReset S D).skinTasks.map taskIdentity = S.skinTasks.map taskIdentity) ∧
    (S.mindSubjects ≠ [] →
      (applyISTDailyReset S D).mindSubjects.map subjectIdentity
        = S.mindSubjects.map subjectIdentity) := by
  by_cases h : S.istDayKey = D
  · simp [applyISTDailyReset, h]
  · refine ⟨fun hne => ?_, fun hne => ?_, fun hne => ?_⟩
    · have hlen : S.bodyTasks.length ≠ 0 := by simpa using hne
      simp [applyISTDailyReset, h, hlen, List.map_map, Function.comp_def, taskIdentity]
    · have hlen : S.skinTasks.length ≠ 0 := by simpa using hne
      simp [applyISTDailyReset, h, hlen, List.map_map, Function.comp_def, taskIdentity]
    · have hlen : S.mindSubjects.length ≠ 0 := by simpa using hne
      simp [applyISTDailyReset, h, hlen, List.map_map, Function.comp_def,
        subjectIdentity, unitIdentity]

theorem reconcile_preserves_identities_witness :
    (applyISTDailyReset sampleState "2024-01-02").bodyTasks.map taskIdentity
        = sampleState.bodyTasks.map taskIdentity ∧
    (applyISTDailyReset sampleState "2024-01-02").skinTasks.map taskIdentity
        = sampleState.skinTasks.map taskIdentity ∧
    (applyISTDailyReset sampleState "2024-01-02").mindSubjects.map subjectIdentity
        = sampleState.mindSubjects.map subjectIdentity :=
  ⟨(reconcile_preserves_identities sampleState "2024-01-02").1 (by decide),
   (reconcile_preserves_identities sampleState "2024-01-02").2.1 (by decide),
   (reconcile_preserves_identities sampleState "2024-01-02").2.2
     (List.cons_ne_nil _ _)⟩

/-- Claim C4: on a day change, an empty collection is seeded from its
default template with every `completed` flag forced to `false` (for
`mindSubjects`, every unit's `completed` flag). -/
theorem reconcile_seeds_empty_from_defaults (S : AppState) (D : String)
    (h : S.istDayKey ≠ D) :
    (S.bodyTasks = [] → (applyISTDailyReset S D).bodyTasks
        = defaultBodyTasks.map (fun t => { t with completed := false })) ∧
    (S.skinTasks = [] → (applyISTDailyReset S D).skinTasks
        = defaultSkinTasks.map (fun t => { t with completed := false })) ∧
    (S.mindSubjects = [] → (applyISTDailyReset S D).mindSubjects
        = defaultMindSubjects.map
            (fun s => { s with units := s.units.map (fun u => { u with completed := false }) })) := by
  refine ⟨fun he => ?_, fun he => ?_, fun he => ?_⟩ <;>
    simp [applyISTDailyReset, h, he]

theorem reconcile_seeds_empty_from_defaults_witness :
    (applyISTDailyReset emptyState "2024-01-02").bodyTasks
        = defaultBodyTasks.map (fun t => { t with completed := false }) ∧
    (applyISTDailyReset emptyState "2024-01-02").skinTasks
        = defaultSkinTasks.map (fun t => { t with completed := false }) ∧
    (applyISTDailyReset emptyState "2024-01-02").mindSubjects
        = defaultMindSubjects.map
            (fun s => { s with units := s.units.map (fun u => { u with completed := false }) }) :=
  ⟨(reconcile_seeds_empty_from_defaults emptyState "2024-01-02" (by decide)).1 rfl,
   (reconcile_seeds_empty_from_defaults emptyState "2024-01-02" (by decide)).2.1 rfl,
   (reconcile_seeds_empty_from_defaults emptyState "2024-01-02" (by decide)).2.2 rfl⟩

/-- Claim C5 counterexample: when the stored day-key already equals `D`,
reconciliation is a no-op, so an empty `bodyTasks` collection stays empty
instead of being seeded from the default template — refuting the claim's
"including the case where `S.dayKey` already equals `D`". -/
theorem reconcile_same_day_empty_not_seeded :
    emptyState.bodyTasks = [] ∧ emptyState.istDayKey = "2024-01-01" ∧
    (applyISTDailyReset emptyState "2024-01-01").bodyTasks = [] :=
  ⟨rfl, rfl, by simp [applyISTDailyReset, emptyState]⟩

/-- Claim C5 (amended): if a checklist collection of `S` is empty and the
stored day-key differs from `D`, the corresponding collection of
`applyISTDailyReset S D` is seeded from the default template and is
non-empty; when the stored day-key equals `D`, reconciliation returns `S`
unchanged (so an empty collection remains empty). -/
theorem reconcile_seeding_iff_day_change (S : AppState) (D : String) :
    (S.istDayKey ≠ D → S.bodyTasks = [] →
      (applyISTDailyReset S D).bodyTasks = defaultBodyTasks ∧
      (applyISTDailyReset S D).bodyTasks ≠ []) ∧
    (S.istDayKey ≠ D → S.skinTasks = [] →
      (applyISTDailyReset S D).skinTasks = defaultSkinTasks ∧
      (applyISTDailyReset S D).skinTasks ≠ []) ∧
    (S.istDayKey ≠ D → S.mindSubjects = [] →
      (applyISTDailyReset S D).mindSubjects = defaultMindSubjects ∧
      (applyISTDailyReset S D).mindSubjects ≠ []) ∧
    (S.istDayKey = D → applyISTDailyReset S D = S) := by
  refine ⟨fun h he => ?_, fun h he => ?_, fun h he => ?_, fun h => ?_⟩
  · constructor <;> simp [applyISTDailyReset, h, he, defaultBodyTasks]
  · constructor <;> simp [applyISTDailyReset, h, he, defaultSkinTasks]
  · constructor <;> simp [applyISTDailyReset, h, he, defaultMindSubjects]
  · simp [applyISTDailyReset, h]

theorem reconcile_seeding_iff_day_change_witness :
    ((applyISTDailyReset emptyState "2024-03-05").bodyTasks = defaultBodyTasks ∧
      (applyISTDailyReset emptyState "2024-03-05").bodyTasks ≠ []) ∧
    ((applyISTDailyReset emptyState "2024-03-05").skinTasks = defaultSkinTasks ∧
      (applyISTDailyReset emptyState "2024-03-05").skinTasks ≠ []) ∧
    ((applyISTDailyReset emptyState "2024-03-05").mindSubjects = defaultMindSubjects ∧
      (applyISTDailyReset emptyState "2024-03-05").mindSubjects ≠ []) ∧
    applyISTDailyReset sampleState "2024-01-01" = sampleState :=
  ⟨(reconcile_seeding_iff_day_change emptyState "2024-03-05").1 (by decide) rfl,
   (reconcile_seeding_iff_day_change emptyState "2024-03-05").2.1 (by decide) rfl,
   (reconcile_seeding_iff_day_change emptyState "2024-03-05").2.2.1 (by decide) rfl,
   (reconcile_seeding_iff_day_change sampleState "2024-01-01").2.2.2 rfl⟩

/-- Claim C6 counterexample: the watermark can regress: on a state whose
stored day-key is `"2024-01-01"`, reconciling with the lexicographically
smaller day-key `"2023-12-31"` moves `istDayKey` strictly backwards. -/
theorem reconcile_watermark_can_regress :
    ¬ sampleState.istDayKey
        ≤ (applyISTDailyReset sampleState "2023-12-31").istDayKey := by
  have h : (applyISTDailyReset sampleState "2023-12-31").istDayKey = "2023-12-31" := by
    simp [applyISTDailyReset, sampleState]
  rw [h]
  show ¬ ("2024-01-01" : String) ≤ "2023-12-31"
  rw [String.le_iff_toList_le]
  decide

/-- Claim C6 (amended): `applyISTDailyReset S D` always leaves the
watermark equal to `D`, the day-key of the most recent reset application;
in particular, whenever `S.istDayKey ≤ D` in the lexicographic string
order (the only situation that arises when `D` is today's key), the
watermark does not regress. -/
theorem reconcile_watermark_equals_day (S : AppState) (D : String) :
    (applyISTDailyReset S D).istDayKey = D ∧
    (S.istDayKey ≤ D → S.istDayKey ≤ (applyISTDailyReset S D).istDayKey) := by
  have h : (applyISTDailyReset S D).istDayKey = D := by
    by_cases h : S.istDayKey = D <;> simp [applyISTDailyReset, h]
  exact ⟨h, fun hle => by rw [h]; exact hle⟩

theorem reconcile_watermark_equals_day_witness :
    (applyISTDailyReset sampleState "2024-02-03").istDayKey = "2024-02-03" ∧
    sampleState.istDayKey ≤ (applyISTDailyReset sampleState "2024-02-03").istDayKey :=
  ⟨(reconcile_watermark_equals_day sampleState "2024-02-03").1,
   (reconcile_watermark_equals_day sampleState "2024-02-03").2
     (by rw [String.le_iff_toList_le]; decide)⟩

/-- Claim C7: the `PUT` handler reconciles first (the stored watermark of
the result equals `D` and `userId` is untouched), then overlays every
caller-provided field — including `weightInput`, `muscleProgress` and
`mindLastReminderDay` — onto the reconciled record, leaving every omitted
field at its reconciled value; the resulting record is what is
persisted. -/
theorem put_reconciles_then_overlays (doc : AppState) (payload : PutPayload) (D : String) :
    (putOverlay doc payload D).istDayKey = D ∧
    (putOverlay doc payload D).userId = doc.userId ∧
    overlayedField payload.plannerTasks (putOverlay doc payload D).plannerTasks
      (applyISTDailyReset doc D).plannerTasks ∧
    overlayedField payload.bodyTasks (putOverlay doc payload D).bodyTasks
      (applyISTDailyReset doc D).bodyTasks ∧
    overlayedField payload.skinTasks (putOverlay doc payload D).skinTasks
      (applyISTDailyReset doc D).skinTasks ∧
    overlayedField payload.skinSessions (putOverlay doc payload D).skinSessions
      (applyISTDailyReset doc D).skinSessions ∧
    overlayedField payload.mindSubjects (putOverlay doc payload D).mindSubjects
      (applyISTDailyReset doc D).mindSubjects ∧
    overlayedField payload.reminderSettings (putOverlay doc payload D).reminderSettings
      (applyISTDailyReset doc D).reminderSettings ∧
    overlayedField payload.mindReminderTimes (putOverlay doc payload D).mindReminderTimes
      (applyISTDailyReset doc D).mindReminderTimes ∧
    overlayedField payload.mindReminderEnabled (putOverlay doc payload D).mindReminderEnabled
      (applyISTDailyReset doc D).mindReminderEnabled ∧
    overlayedField payload.mindLastReminderDay (putOverlay doc payload D).mindLastReminderDay
      (applyISTDailyReset doc D).mindLastReminderDay ∧
    overlayedField payload.weightInput (putOverlay doc payload D).weightInput
      (applyISTDailyReset doc D).weightInput ∧
    overlayedField payload.muscleProgress (putOverlay doc payload D).muscleProgress
      (applyISTDailyReset doc D).muscleProgress := by
  refine ⟨by simp [putOverlay, istDayKey_after_reset], ?_,
    ?_, ?_, ?_, ?_, ?_, ?_, ?_, ?_, ?_, ?_, ?_⟩
  · by_cases h : doc.istDayKey = D <;> simp [putOverlay, applyISTDailyReset, h]
  all_goals
    exact ⟨fun v hv => by simp [putOverlay, hv, JsField.coalesce],
           fun hv => by simp [putOverlay, hv, JsField.coalesce]⟩

theorem put_reconciles_then_overlays_witness :
    (putOverlay sampleState sessionOnlyPayload "2024-01-02").istDayKey = "2024-01-02" ∧
    (putOverlay sampleState sessionOnlyPayload "2024-01-02").skinSessions = 5 ∧
    (putOverlay sampleState sessionOnlyPayload "2024-01-02").bodyTasks
      = (applyISTDailyReset sampleState "2024-01-02").bodyTasks ∧
    (putOverlay sampleState sessionOnlyPayload "2024-01-02").mindSubjects
      = (applyISTDailyReset sampleState "2024-01-02").mindSubjects ∧
    (putOverlay sampleState sessionOnlyPayload "2024-01-02").weightInput
      = (applyISTDailyReset sampleState "2024-01-02").weightInput :=
  ⟨(put_reconciles_then_overlays sampleState sessionOnlyPayload "2024-01-02").1,
   (put_reconciles_then_overlays sampleState sessionOnlyPayload
      "2024-01-02").2.2.2.2.2.1.1 5 rfl,
   (put_reconciles_then_overlays sampleState sessionOnlyPayload
      "2024-01-02").2.2.2.1.2 rfl,
   (put_reconciles_then_overlays sampleState sessionOnlyPayload
      "2024-01-02").2.2.2.2.2.2.1.2 rfl,
   (put_reconciles_then_overlays sampleState sessionOnlyPayload
      "2024-01-02").2.2.2.2.2.2.2.2.2.2.2.1.2 rfl⟩

/-- Claim C10: a payload field whose value is `null` or `undefined` is
treated as absent by the `??` overlay: the stored result keeps the
reconciled record's value for that field, so the public update interface
can never clear a field to `null`. -/
theorem put_nullish_fields_keep_reconciled (doc : AppState) (payload : PutPayload) (D : String) :
    (payload.plannerTasks.isNullish →
      (putOverlay doc payload D).plannerTasks = (applyISTDailyReset doc D).plannerTasks) ∧
    (payload.bodyTasks.isNullish →
      (putOverlay doc payload D).bodyTasks = (applyISTDailyReset doc D).bodyTasks) ∧
    (payload.skinTasks.isNullish →
      (putOverlay doc payload D).skinTasks = (applyISTDailyReset doc D).skinTasks) ∧
    (payload.skinSessions.isNullish →
      (putOverlay doc payload D).skinSessions = (applyISTDailyReset doc D).skinSessions) ∧
    (payload.mindSubjects.isNullish →
      (putOverlay doc payload D).mindSubjects = (applyISTDailyReset doc D).mindSubjects) ∧
    (payload.reminderSettings.isNullish →
      (putOverlay doc payload D).reminderSettings = (applyISTDailyReset doc D).reminderSettings) ∧
    (payload.mindReminderTimes.isNullish →
      (putOverlay doc payload D).mindReminderTimes = (applyISTDailyReset doc D).mindReminderTimes) ∧
    (payload.mindReminderEnabled.isNullish →
      (putOverlay doc payload D).mindReminderEnabled
        = (applyISTDailyReset doc D).mindReminderEnabled) ∧
    (payload.mindLastReminderDay.isNullish →
      (putOverlay doc payload D).mindLastReminderDay
        = (applyISTDailyReset doc D).mindLastReminderDay) ∧
    (payload.weightInput.isNullish →
      (putOverlay doc payload D).weightInput = (applyISTDailyReset doc D).weightInput) ∧
    (payload.muscleProgress.isNullish →
      (putOverlay doc payload D).muscleProgress = (applyISTDailyReset doc D).muscleProgress) := by
  refine ⟨?_, ?_, ?_, ?_, ?_, ?_, ?_, ?_, ?_, ?_, ?_⟩ <;>
    intro h <;>
    simp only [putOverlay] <;>
    exact JsField.coalesce_nullish _ _ h

theorem put_nullish_fields_keep_reconciled_witness :
    (putOverlay sampleState nullishPayload "2024-01-02").plannerTasks
      = (applyISTDailyReset sampleState "2024-01-02").plannerTasks ∧
    (putOverlay sampleState nullishPayload "2024-01-02").bodyTasks
      = (applyISTDailyReset sampleState "2024-01-02").bodyTasks ∧
    (putOverlay sampleState nullishPayload "2024-01-02").skinTasks
      = (applyISTDailyReset sampleState "2024-01-02").skinTasks ∧
    (putOverlay sampleState nullishPayload "2024-01-02").skinSessions
      = (applyISTDailyReset sampleState "2024-01-02").skinSessions ∧
    (putOverlay sampleState nullishPayload "2024-01-02").mindSubjects
      = (applyISTDailyReset sampleState "2024-01-02").mindSubjects ∧
    (putOverlay sampleState nullishPayload "2024-01-02").reminderSettings
      = (applyISTDailyReset sampleState "2024-01-02").reminderSettings ∧
    (putOverlay sampleState nullishPayload "2024-01-02").mindReminderTimes
      = (applyISTDailyReset sampleState "2024-01-02").mindReminderTimes ∧
    (putOverlay sampleState nullishPayload "2024-01-02").mindReminderEnabled
      = (applyISTDailyReset sampleState "2024-01-02").mindReminderEnabled ∧
    (putOverlay sampleState nullishPayload "2024-01-02").mindLastReminderDay
      = (applyISTDailyReset sampleState "2024-01-02").mindLastReminderDay ∧
    (putOverlay sampleState nullishPayload "2024-01-02").weightInput
      = (applyISTDailyReset sampleState "2024-01-02").weightInput ∧
    (putOverlay sampleState nullishPayload "2024-01-02").muscleProgress
      = (applyISTDailyReset sampleState "2024-01-02").muscleProgress :=
  ⟨(put_nullish_fields_keep_reconciled sampleState nullishPayload "2024-01-02").1 trivial,
   (put_nullish_fields_keep_reconciled sampleState nullishPayload "2024-01-02").2.1 trivial,
   (put_nullish_fields_keep_reconciled sampleState nullishPayload "2024-01-02").2.2.1 trivial,
   (put_nullish_fields_keep_reconciled sampleState nullishPayload "2024-01-02").2.2.2.1 trivial,
   (put_nullish_fields_keep_reconciled sampleState nullishPayload
      "2024-01-02").2.2.2.2.1 trivial,
   (put_nullish_fields_keep_reconciled sampleState nullishPayload
      "2024-01-02").2.2.2.2.2.1 trivial,
   (put_nullish_fields_keep_reconciled sampleState nullishPayload
      "2024-01-02").2.2.2.2.2.2.1 trivial,
   (put_nullish_fields_keep_reconciled sampleState nullishPayload
      "2024-01-02").2.2.2.2.2.2.2.1 trivial,
   (put_nullish_fields_keep_reconciled sampleState nullishPayload
      "2024-01-02").2.2.2.2.2.2.2.2.1 trivial,
   (put_nullish_fields_keep_reconciled sampleState nullishPayload
      "2024-01-02").2.2.2.2.2.2.2.2.2.1 trivial,
   (put_nullish_fields_keep_reconciled sampleState nullishPayload
      "2024-01-02").2.2.2.2.2.2.2.2.2.2 trivial⟩

/- ------------------------------------------------------------------ -/
/- Theorems about the day-key resolver -/
/- ------------------------------------------------------------------ -/

theorem decimalDigitsCore_fuel {f₁ f₂ n : Nat} (h₁ : n < f₁) (h₂ : n < f₂) :
    decimalDigitsCore f₁ n = decimalDigitsCore f₂ n := by
  induction f₁ generalizing f₂ n with
  | zero => omega
  | succ f₁ ih =>
    cases f₂ with
    | zero => omega
    | succ f₂ =>
      simp only [decimalDigitsCore]
      by_cases h : n < 10
      · rw [if_pos h, if_pos h]
      · rw [if_neg h, if_neg h]
        congr 1
        exact ih (by omega) (by omega)

theorem decimalDigits_lt10 {n : Nat} (h : n < 10) : decimalDigits n = [digitChar n] := by
  simp [decimalDigits, decimalDigitsCore, h]

theorem decimalDigits_ge10 {n : Nat} (h : 10 ≤ n) :
    decimalDigits n = decimalDigits (n / 10) ++ [digitChar n] := by
  have hs : decimalDigits n = decimalDigitsCore n (n / 10) ++ [digitChar n] := by
    simp only [decimalDigits, decimalDigitsCore]
    rw [if_neg (by omega)]
  rw [hs, decimalDigits]
  congr 1
  exact decimalDigitsCore_fuel (by omega) (by omega)

/-- A four-digit year renders as exactly its four digit characters. -/
theorem decimalDigits_four {y : Nat} (h₁ : 1000 ≤ y) (h₂ : y ≤ 9999) :
    decimalDigits y
      = [digitChar (y / 1000), digitChar (y / 100), digitChar (y / 10), digitChar y] := by
  rw [decimalDigits_ge10 (show 10 ≤ y by omega),
      decimalDigits_ge10 (show 10 ≤ y / 10 by omega),
      decimalDigits_ge10 (show 10 ≤ y / 10 / 10 by omega),
      decimalDigits_lt10 (show y / 10 / 10 / 10 < 10 by omega)]
  simp [Nat.div_div_eq_div_mul]

theorem char_digit_lt :
    ∀ x, x < 10 → ∀ y, y < 10 →
      (Char.ofNat (48 + x) < Char.ofNat (48 + y) ↔ x < y) := by decide

theorem char_digit_eq :
    ∀ x, x < 10 → ∀ y, y < 10 →
      (Char.ofNat (48 + x) = Char.ofNat (48 + y) ↔ x = y) := by decide

theorem digitChar_lt_iff (a b : Nat) : (digitChar a < digitChar b ↔ a % 10 < b % 10) :=
  char_digit_lt (a % 10) (Nat.mod_lt _ (by omega)) (b % 10) (Nat.mod_lt _ (by omega))

theorem digitChar_eq_iff (a b : Nat) : (digitChar a = digitChar b ↔ a % 10 = b % 10) :=
  char_digit_eq (a % 10) (Nat.mod_lt _ (by omega)) (b % 10) (Nat.mod_lt _ (by omega))

theorem lex_cons_cons_iff {α : Type} {r : α → α → Prop} {a b : α} {l₁ l₂ : List α} :
    List.Lex r (a :: l₁) (b :: l₂) ↔ r a b ∨ (a = b ∧ List.Lex r l₁ l₂) := by
  constructor
  · intro h
    cases h with
    | cons h => exact Or.inr ⟨rfl, h⟩
    | rel h => exact Or.inl h
  · rintro (h | ⟨rfl, h⟩)
    · exact List.Lex.rel h
    · exact List.Lex.cons h

/-- The month and day produced by the civil-date algorithm always fit in
two digits (and are at least 1), for every day number. -/
theorem civilFromDays_month_day_bounds (z : Int) :
    1 ≤ (civilFromDays z).2.1 ∧ (civilFromDays z).2.1 < 100 ∧
    1 ≤ (civilFromDays z).2.2 ∧ (civilFromDays z).2.2 < 100 := by
  have hdoe : ((z + 719468) - ((z + 719468).fdiv 146097) * 146097).toNat ≤ 146096 := by
    have h2 : (z + 719468) - ((z + 719468).fdiv 146097) * 146097
        = (z + 719468).fmod 146097 := by
      rw [Int.fmod_def]; ring
    have h3 : (z + 719468).fmod 146097 < 146097 := Int.fmod_lt_of_pos _ (by norm_num)
    omega
  simp only [civilFromDays]
  split <;> omega

/-- A two-digit block decides the lexicographic comparison by the value
modulo 100, falling through to the tails on equality. -/
theorem pad2_append_lex_iff (a b : Nat) (r₁ r₂ : List Char) :
    (List.Lex (fun x y => x < y) (pad2 a ++ r₁) (pad2 b ++ r₂) ↔
      (a % 100 < b % 100 ∨
        (a % 100 = b % 100 ∧ List.Lex (fun x y => x < y) r₁ r₂))) := by
  have ha : a % 100 = 10 * (a / 10 % 10) + a % 10 := by omega
  have hb : b % 100 = 10 * (b / 10 % 10) + b % 10 := by omega
  by_cases hr : List.Lex (fun x y => x < y) r₁ r₂ <;>
    simp only [pad2, List.cons_append, List.nil_append, lex_cons_cons_iff,
      digitChar_lt_iff, digitChar_eq_iff, hr, iff_true, iff_false, and_true,
      and_false, or_false] <;>
    omega

theorem pad2_lex_iff (a b : Nat) :
    (List.Lex (fun x y => x < y) (pad2 a) (pad2 b) ↔ a % 100 < b % 100) := by
  have h := pad2_append_lex_iff a b [] []
  simpa using h

/-- A four-digit year renders as two two-digit blocks. -/
theorem decimalDigits_as_pads {y : Nat} (h₁ : 1000 ≤ y) (h₂ : y ≤ 9999) :
    decimalDigits y = pad2 (y / 100) ++ pad2 y := by
  rw [decimalDigits_four h₁ h₂]
  simp only [pad2, List.cons_append, List.nil_append]
  rw [Nat.div_div_eq_div_mul]

/-- Lexicographic order on rendered day-keys agrees with the calendar
order of the `(year, month, day)` triples, provided the year has four
digits and month and day have at most two. -/
theorem dayKeyChars_lex_iff {y₁ m₁ d₁ y₂ m₂ d₂ : Nat}
    (hy₁ : 1000 ≤ y₁) (hz₁ : y₁ ≤ 9999) (hy₂ : 1000 ≤ y₂) (hz₂ : y₂ ≤ 9999)
    (hm₁ : m₁ < 100) (hm₂ : m₂ < 100) (hd₁ : d₁ < 100) (hd₂ : d₂ < 100) :
    (List.Lex (fun a b => a < b) (dayKeyChars y₁ m₁ d₁) (dayKeyChars y₂ m₂ d₂) ↔
      (y₁ < y₂ ∨ (y₁ = y₂ ∧ (m₁ < m₂ ∨ (m₁ = m₂ ∧ d₁ < d₂))))) := by
  unfold dayKeyChars
  rw [decimalDigits_as_pads hy₁ hz₁, decimalDigits_as_pads hy₂ hz₂,
    List.append_assoc, List.append_assoc]
  simp only [pad2_append_lex_iff, pad2_lex_iff, List.Lex.cons_iff]
  omega

theorem getISTDayKey_lt_iff {t₁ t₂ : Int}
    (h₁ : 1000 ≤ (istCivil t₁).1) (h₂ : (istCivil t₁).1 ≤ 9999)
    (h₃ : 1000 ≤ (istCivil t₂).1) (h₄ : (istCivil t₂).1 ≤ 9999) :
    (getISTDayKey t₁ < getISTDayKey t₂ ↔ dayTripleLt (istCivil t₁) (istCivil t₂)) := by
  have km₁ : (istCivil t₁).2.1 < 100 :=
    (civilFromDays_month_day_bounds (istDayNumber t₁)).2.1
  have kd₁ : (istCivil t₁).2.2 < 100 :=
    (civilFromDays_month_day_bounds (istDayNumber t₁)).2.2.2
  have km₂ : (istCivil t₂).2.1 < 100 :=
    (civilFromDays_month_day_bounds (istDayNumber t₂)).2.1
  have kd₂ : (istCivil t₂).2.2 < 100 :=
    (civilFromDays_month_day_bounds (istDayNumber t₂)).2.2.2
  have gy₁ : 1000 ≤ (istCivil t₁).1.toNat := by omega
  have gz₁ : (istCivil t₁).1.toNat ≤ 9999 := by omega
  have gy₂ : 1000 ≤ (istCivil t₂).1.toNat := by omega
  have gz₂ : (istCivil t₂).1.toNat ≤ 9999 := by omega
  have e₁ : (getISTDayKey t₁).toList
      = dayKeyChars (istCivil t₁).1.toNat (istCivil t₁).2.1 (istCivil t₁).2.2 := rfl
  have e₂ : (getISTDayKey t₂).toList
      = dayKeyChars (istCivil t₂).1.toNat (istCivil t₂).2.1 (istCivil t₂).2.2 := rfl
  rw [String.lt_iff_toList_lt, e₁, e₂]
  refine Iff.trans
    (Iff.trans Iff.rfl (dayKeyChars_lex_iff gy₁ gz₁ gy₂ gz₂ km₁ km₂ kd₁ kd₂)) ?_
  simp only [dayTripleLt]
  omega

/-- Claim C9 counterexample: the resolver is not fixed-width
`YYYY-MM-DD` for every instant, and day-keys are then not
lexicographically sortable: the instant `-46374422400000` ms (a day in
year 500 in IST, a valid JavaScript `Date`) yields the nine-character key
`"500-06-15"`, which compares lexicographically above the key of the
later instant `-30610224000000` ms (1000-01-01 IST). -/
theorem getISTDayKey_not_fixed_width :
    getISTDayKey (-46374422400000) = "500-06-15" ∧
    (getISTDayKey (-46374422400000)).length ≠ 10 ∧
    (-46374422400000 : Int) < -30610224000000 ∧
    getISTDayKey (-30610224000000) = "1000-01-01" ∧
    getISTDayKey (-30610224000000) < getISTDayKey (-46374422400000) := by
  refine ⟨by decide, by decide, by norm_num, by decide, ?_⟩
  rw [String.lt_iff_toList_lt]
  decide

/-- Claim C9 (amended): for every instant whose IST calendar year has
four digits (1000..9999) — in particular every instant between 1000 CE
and 9999 CE — the day-key resolver is a pure total function of the
instant returning the calendar date of that instant in the fixed
timezone UTC+5:30 as the fixed-width ten-character string `YYYY-MM-DD`,
and the lexicographic order of two such day-keys coincides with the
calendar order of their `(year, month, day)` triples. -/
theorem getISTDayKey_fixed_width_sortable (t₁ t₂ : Int)
    (h₁ : 1000 ≤ (istCivil t₁).1) (h₂ : (istCivil t₁).1 ≤ 9999)
    (h₃ : 1000 ≤ (istCivil t₂).1) (h₄ : (istCivil t₂).1 ≤ 9999) :
    (getISTDayKey t₁).length = 10 ∧
    (getISTDayKey t₁ < getISTDayKey t₂ ↔ dayTripleLt (istCivil t₁) (istCivil t₂)) ∧
    (getISTDayKey t₁ ≤ getISTDayKey t₂ ↔
      (dayTripleLt (istCivil t₁) (istCivil t₂) ∨ istCivil t₁ = istCivil t₂)) := by
  refine ⟨?_, getISTDayKey_lt_iff h₁ h₂ h₃ h₄, ?_⟩
  · have gy₁ : 1000 ≤ (istCivil t₁).1.toNat := by omega
    have gz₁ : (istCivil t₁).1.toNat ≤ 9999 := by omega
    show (dayKeyChars (istCivil t₁).1.toNat (istCivil t₁).2.1 (istCivil t₁).2.2).length = 10
    unfold dayKeyChars
    rw [decimalDigits_four gy₁ gz₁]
    simp [pad2]
  · rw [← not_lt, getISTDayKey_lt_iff h₃ h₄ h₁ h₂]
    simp only [dayTripleLt, Prod.ext_iff]
    omega

theorem getISTDayKey_fixed_width_sortable_witness :
    (getISTDayKey 0).length = 10 ∧
    (getISTDayKey 0 < getISTDayKey 86400000 ↔
      dayTripleLt (istCivil 0) (istCivil 86400000)) ∧
    (getISTDayKey 0 ≤ getISTDayKey 86400000 ↔
      (dayTripleLt (istCivil 0) (istCivil 86400000) ∨ istCivil 0 = istCivil 86400000)) :=
  getISTDayKey_fixed_width_sortable 0 86400000
    (by decide) (by decide) (by decide) (by decide)

end TaskManager
